import Mathlib

/-
Shallow embedding of src/scraper.py (LinkedIn_Scraper).

Python strings are embedded as Lean String values; the Python string
operations used by the scraper (strip, lower, "in", endswith, rstrip,
split, str.isdigit filtering) are embedded below as executable functions
on the underlying character lists.  DOM access is embedded as record
fields of a PostElem / FeedPage value: every selenium query the code
performs corresponds to one field, with Option encoding
NoSuchElementException / a missing attribute, exactly as the code
catches it.  Sleeps and settle delays have no observable effect on the
embedded state and are dropped.
-/

/-- Embedding of the Python str.strip() call used throughout the scraper:
removes leading and trailing whitespace. -/
def pyStrip (s : String) : String :=
  ⟨((s.data.dropWhile Char.isWhitespace).reverse.dropWhile Char.isWhitespace).reverse⟩

/-- Embedding of Python str.lower(). -/
def pyLower (s : String) : String :=
  ⟨s.data.map Char.toLower⟩

/-- Occurrence test on character lists: does sub occur as a contiguous
sublist?  This embeds the Python substring operator. -/
def listContainsSub (sub : List Char) : List Char → Bool
  | [] => sub.isEmpty
  | c :: rest => sub.isPrefixOf (c :: rest) || listContainsSub sub rest

/-- Embedding of the Python expression sub in s. -/
def pyContains (s sub : String) : Bool :=
  listContainsSub sub.data s.data

/-- Embedding of Python s.endswith(suffix). -/
def pyEndsWith (s suffixStr : String) : Bool :=
  suffixStr.data.isSuffixOf s.data

/-- Embedding of the Python call s.rstrip(slash) at line 130 of
src/scraper.py: removes every trailing slash. -/
def pyRstripSlash (s : String) : String :=
  ⟨(s.data.reverse.dropWhile (fun c => c = '/')).reverse⟩

/-- Splitter on character lists embedding Python str.split(sep) for a
non-empty sep.  The fuel argument only drives the recursion; it is
always called with fuel at least the length of the list, and every
recursive call removes at least one character, so the fuel-exhausted
branch is unreachable. -/
def splitCharsF (sep : List Char) : Nat → List Char → List (List Char)
  | _, [] => [[]]
  | 0, c :: rest => [c :: rest]
  | fuel + 1, c :: rest =>
    if !sep.isEmpty && sep.isPrefixOf (c :: rest) then
      [] :: splitCharsF sep fuel (List.drop (sep.length - 1) rest)
    else
      match splitCharsF sep fuel rest with
      | [] => [c :: rest]
      | chunk :: chunks => (c :: chunk) :: chunks

/-- Embedding of Python s.split(sep) for the non-empty separators the
scraper uses. -/
def pySplit (s sep : String) : List String :=
  (splitCharsF sep.data s.data.length s.data).map (fun cs => ⟨cs⟩)

/-- Embedding of the Python idiom at lines 244 and 246 of
src/scraper.py: joining every digit character of the text, with the
falsy empty string replaced by the literal zero string. -/
def digitsOr0 (t : String) : String :=
  let ds := t.data.filter Char.isDigit
  if ds.isEmpty then "0" else ⟨ds⟩

/-- Observer used by the numeric-field claims: a non-empty string whose
characters are all decimal digits. -/
def isDigitString (s : String) : Bool :=
  !s.data.isEmpty && s.data.all Char.isDigit

/-- Modelled from the spec: the leading digit run of a text, the maximal
digit prefix.  This is the extraction the spec claims for the count
spans; it is compared against the digit joining the code performs. -/
def leadingDigitRun (s : String) : String :=
  ⟨s.data.takeWhile Char.isDigit⟩

/-- Modelled from the spec: an inline base64 GIF placeholder, the known
lazy-load stub, is a URL that begins with the base64 GIF data header. -/
def isBase64GifPlaceholder (s : String) : Bool :=
  "data:image/gif;base64".data.isPrefixOf s.data

/-- One extracted comment, the dictionary built at lines 300-303 of
src/scraper.py. -/
structure CommentRecord where
  comment_text : String
  likes : String
deriving DecidableEq

/-- One extracted post, the dictionary built by the function
named with the words extract post data in src/scraper.py. -/
structure PostRecord where
  post_text : String
  likes : String
  comments : String
  shares : String
  image_urls : List String
  video_urls : List String
  top_comments : List CommentRecord
deriving DecidableEq

/-- The result dictionary assembled at lines 122-127 of src/scraper.py. -/
structure FeedScrapeResult where
  company_name : String
  timestamp : String
  source_url : String
  posts : List PostRecord
deriving DecidableEq

/-- The DOM data of one comment-item element, as queried at lines
292-299 of src/scraper.py: the text of the main-content span (none when
the element is missing, which raises NoSuchElementException and skips
the comment) and the text of the reactions-count span of the social bar
(none when absent, which defaults the like count). -/
structure CommentElem where
  mainContent : Option String
  likeSpan : Option String
deriving DecidableEq

/-- The DOM data of one post element, one field per selenium query the
extraction code performs on it.  bodyText is the combined two-selector
body query of line 223; reactionsCount the reactions-count span of line
230; ariaHiddenSpans the texts of the aria-hidden spans of line 240;
mediaSrcs maps a CSS selector (tag dot class) to the src attributes of
its matches, an attribute being none when absent; hasCommentsButton
states whether the comments-affordance button of line 277 exists;
commentItems are the comment-item elements present once the load-more
expansion loop of lines 281-287 has run to exhaustion. -/
structure PostElem where
  bodyText : Option String
  reactionsCount : Option String
  ariaHiddenSpans : List String
  mediaSrcs : String → List (Option String)
  hasCommentsButton : Bool
  commentItems : List CommentElem

/-- The scraper configuration consumed by the embedded core: the scroll
count and the comment cap of the constructor at lines 39-48 of
src/scraper.py.  The pause durations only feed sleeps and have no
observable effect in the embedding. -/
structure ScraperConfig where
  num_scrolls : Nat
  max_comments : Nat
deriving DecidableEq

/-- The default configuration of the constructor. -/
def cfgDefault : ScraperConfig := { num_scrolls := 12, max_comments := 15 }

/-- Embedding of the media-URL helper of lines 260-272 of
src/scraper.py: for each class name in order, query tag dot class, and
for each matched element keep the src attribute when it is truthy and
does not end with the base64 GIF header. -/
def extractMediaUrls (post : PostElem) (element_type : String) (class_names : List String) : List String :=
  class_names.foldl (fun urls class_name =>
    (post.mediaSrcs (element_type ++ "." ++ class_name)).foldl (fun acc src? =>
      match src? with
      | some src =>
        if !src.isEmpty && !pyEndsWith src "data:image/gif;base64" then acc ++ [src] else acc
      | none => acc) urls) []

/-- The comment record built from one comment element, used to state the
characterisations of the comment loop. -/
def commentRecordOf (ce : CommentElem) : CommentRecord :=
  { comment_text := pyStrip (ce.mainContent.getD "")
    likes := match ce.likeSpan with
      | none => "0"
      | some s => pyStrip s }

/-- Embedding of the per-comment loop of lines 292-305 of
src/scraper.py: a comment whose main-content span is missing is skipped
(the NoSuchElementException continue), otherwise its text is stripped
and its like count read with the zero default. -/
def extractCommentsLoop : List CommentElem → List CommentRecord
  | [] => []
  | ce :: rest =>
    match ce.mainContent with
    | none => extractCommentsLoop rest
    | some t =>
      { comment_text := pyStrip t
        likes := match ce.likeSpan with
          | none => "0"
          | some s => pyStrip s } :: extractCommentsLoop rest

/-- Embedding of the comment extraction of lines 274-308 of
src/scraper.py: when the comments-affordance button is missing the
NoSuchElementException of line 277 short-circuits to the empty list;
otherwise the first max_comments comment items (the slice of line 289)
feed the per-comment loop. -/
def extractComments (cfg : ScraperConfig) (post : PostElem) : List CommentRecord :=
  if post.hasCommentsButton then
    extractCommentsLoop (post.commentItems.take cfg.max_comments)
  else []

/-- One step of the aria-hidden span scan of lines 240-246 of
src/scraper.py, folding over the comments and shares fields. -/
def countsStep (cs : String × String) (spanText : String) : String × String :=
  let text := pyLower (pyStrip spanText)
  if pyContains text "comment" then (digitsOr0 text, cs.2)
  else if pyContains text "share" || pyContains text "repost" then (cs.1, digitsOr0 text)
  else cs

/-- Observer: the span texts that set the comments field. -/
def spanIsComment (t : String) : Bool :=
  pyContains (pyLower (pyStrip t)) "comment"

/-- Observer: the span texts that set the shares field, which by the
elif of line 245 excludes the comment-matching ones. -/
def spanIsShare (t : String) : Bool :=
  !spanIsComment t && (pyContains (pyLower (pyStrip t)) "share" || pyContains (pyLower (pyStrip t)) "repost")

/-- The image class-name fallback chain of line 251 of src/scraper.py. -/
def imageClassNames : List String := ["feed-shared-image__image", "feed-shared-image__img"]

/-- The video class-name fallback chain of line 252 of src/scraper.py. -/
def videoClassNames : List String := ["feed-shared-video__video", "feed-shared-video__player"]

/-- Embedding of the per-post extraction of lines 208-258 of
src/scraper.py.  The see-more click only mutates the rendered text and
is absorbed into bodyText; a missing body (the NoSuchElementException of
line 225) yields the sentinel text; a missing reactions count defaults
the likes field; the aria-hidden spans are scanned in order over the
initial zero counts; media and comments are delegated. -/
def extractPostData (cfg : ScraperConfig) (post : PostElem) : PostRecord :=
  let post_text :=
    match post.bodyText with
    | some t => pyStrip t
    | none => "[Could not extract post content]"
  let likes :=
    match post.reactionsCount with
    | some t => pyStrip t
    | none => "0"
  let counts := post.ariaHiddenSpans.foldl countsStep ("0", "0")
  { post_text := post_text
    likes := likes
    comments := counts.1
    shares := counts.2
    image_urls := extractMediaUrls post "img" imageClassNames
    video_urls := extractMediaUrls post "video" videoClassNames
    top_comments := extractComments cfg post }

/-- The deduplication accumulator of lines 176-177 of src/scraper.py:
the seen set is carried as a list, an element already seen is dropped,
an unseen one is kept and recorded. -/
def dedupFirstAux {α : Type} [DecidableEq α] (seen : List α) : List α → List α
  | [] => []
  | x :: xs => if x ∈ seen then dedupFirstAux seen xs else x :: dedupFirstAux (x :: seen) xs

/-- Embedding of the duplicate removal of lines 176-177 of
src/scraper.py, which preserves first-seen order. -/
def dedupFirst {α : Type} [DecidableEq α] (l : List α) : List α :=
  dedupFirstAux [] l

/-- The post-selector fallback chain of lines 161-167 of src/scraper.py. -/
def postSelectors : List String :=
  ["div.feed-shared-update-v2", "div.feed-shared-update", "div.feed-shared-article",
   "div.feed-shared-external-video", "div.feed-shared-text"]

/-- Embedding of the selector loop of lines 169-173 of src/scraper.py:
the matches of every selector are concatenated in selector order (the
emptiness guard of line 171 only skips a no-op extend). -/
def allMatches {α : Type} (query : String → List α) : List α :=
  postSelectors.foldl (fun acc sel =>
    let es := query sel
    if es.isEmpty then acc else acc ++ es) []

/-- The deduplicated post-element list one feed scan produces, lines
169-177 of src/scraper.py. -/
def collectPostElements {α : Type} [DecidableEq α] (query : String → List α) : List α :=
  dedupFirst (allMatches query)

/-- The scroll loop body of lines 141-151 of src/scraper.py, counting
performed scroll iterations.  heights k is the document height the page
reports after k scrolls; the loop reads the height after the scroll of
iteration k and stops when it equals the previous one. -/
def scrollLoopIters (heights : Nat → Nat) : Nat → Nat → Nat → Nat
  | 0, _, _ => 0
  | fuel + 1, lastH, k =>
    if heights k = lastH then 1
    else 1 + scrollLoopIters heights fuel (heights k) (k + 1)

/-- The number of scroll iterations the loop of lines 140-151 of
src/scraper.py performs: the initial height is read before the loop and
the first iteration performs scroll number one. -/
def scrollIters (heights : Nat → Nat) (numScrolls : Nat) : Nat :=
  scrollLoopIters heights numScrolls (heights 0) 1

/-- Embedding of the URL normalization of lines 130-132 of
src/scraper.py: strip trailing slashes, then append the posts suffix
unless already present. -/
def normalizeCompanyUrl (u : String) : String :=
  let u' := pyRstripSlash u
  if pyEndsWith u' "/posts" then u' else u' ++ "/posts"

/-- Embedding of the company-slug derivation of line 116 of
src/scraper.py.  The index one into the split is an IndexError (none)
when the URL does not contain the company marker; the index zero into
the second split always exists because a split is never empty. -/
def extractCompanyName (url : String) : Option String :=
  match (pySplit url "/company/")[1]? with
  | none => none
  | some afterCompany => some ((pySplit afterCompany "/").headD "")

/-- The failures the embedded run can signal: the RuntimeError of line
113 when the browser was never started, and the IndexError of line 116
when the URL has no company segment. -/
inductive ScrapeError where
  | noBrowser
  | indexError
deriving DecidableEq

/-- The observable page effects of one run, in program order: the
navigation of line 135, each scroll of line 143, the into-view scroll of
line 185 and the extraction of line 189 per post, and the handing of the
result to the output sink of line 204. -/
inductive ScrapeEffect (α : Type) where
  | navigate (url : String)
  | scrollToBottom
  | scrollIntoView (e : α)
  | extractPost (e : α)
  | save (filename : String)
deriving DecidableEq

/-- Concatenation of a list of effect lists. -/
def joinLists {α : Type} : List (List α) → List α
  | [] => []
  | l :: ls => l ++ joinLists ls

/-- The page a run works against: the document height after each number
of scrolls, the elements each selector returns after scrolling, and the
DOM data behind each element handle. -/
structure FeedPage (α : Type) where
  heights : Nat → Nat
  query : String → List α
  read : α → PostElem

/-- Embedding of the top-level run of lines 101-206 of src/scraper.py,
returning the result (or the failure) together with the page-effect
trace in program order.  The slug is derived (line 116) before the
navigation of line 135, the scroll loop, the selector scan and the
per-post loop; the per-post exception handler of lines 197-199 never
fires here because every DOM failure is already encoded as a defaulted
field.  Modelled from the spec: the save_posts output sink invoked at
line 204 (its body is commented out in src/scraper.py) is treated as an
external collaborator and recorded as a save effect with the filename of
line 203. -/
def scrapeCompanyPosts {α : Type} [DecidableEq α] (cfg : ScraperConfig) (browserStarted : Bool)
    (page : FeedPage α) (companyUrl : String) (timestamp : String) (autoSave : Bool) :
    Except ScrapeError FeedScrapeResult × List (ScrapeEffect α) :=
  if browserStarted = false then (Except.error ScrapeError.noBrowser, [])
  else
    match extractCompanyName companyUrl with
    | none => (Except.error ScrapeError.indexError, [])
    | some companyName =>
      let navUrl := normalizeCompanyUrl companyUrl
      let nScrolls := scrollIters page.heights cfg.num_scrolls
      let elems := collectPostElements page.query
      let posts := elems.map (fun e => extractPostData cfg (page.read e))
      let result : FeedScrapeResult :=
        { company_name := companyName
          timestamp := timestamp
          source_url := companyUrl
          posts := posts }
      let trace :=
        ScrapeEffect.navigate navUrl ::
          (List.replicate nScrolls ScrapeEffect.scrollToBottom ++
            joinLists (elems.map (fun e => [ScrapeEffect.scrollIntoView e, ScrapeEffect.extractPost e])) ++
            (if autoSave then [ScrapeEffect.save (companyName ++ "_posts_" ++ timestamp ++ ".json")] else []))
      (Except.ok result, trace)

/- Helper lemmas about the embedded operations. -/

theorem isPrefixOf_self_append (l₁ l₂ : List Char) : l₁.isPrefixOf (l₁ ++ l₂) = true := by
  induction l₁ with
  | nil => simp [List.isPrefixOf]
  | cons a as ih => simp [List.isPrefixOf, ih]

theorem pyEndsWith_append (s t : String) : pyEndsWith (s ++ t) t = true := by
  show t.data.isSuffixOf (s ++ t).data = true
  have hd : (s ++ t).data = s.data ++ t.data := rfl
  rw [hd]
  unfold List.isSuffixOf
  rw [List.reverse_append]
  exact isPrefixOf_self_append _ _

theorem splitCharsF_of_not_contains (sep : List Char) :
    ∀ (fuel : Nat) (l : List Char), listContainsSub sep l = false → splitCharsF sep fuel l = [l] := by
  intro fuel
  induction fuel with
  | zero =>
    intro l _
    cases l with
    | nil => rfl
    | cons c rest => rfl
  | succ f ih =>
    intro l h
    cases l with
    | nil => rfl
    | cons c rest =>
      have h' : (sep.isPrefixOf (c :: rest) || listContainsSub sep rest) = false := h
      have h1 : sep.isPrefixOf (c :: rest) = false := by
        cases hp : sep.isPrefixOf (c :: rest) <;> simp [hp] at h' ⊢
      have h2 : listContainsSub sep rest = false := by
        cases hp : listContainsSub sep rest <;> simp [hp] at h' ⊢
      show splitCharsF sep (f + 1) (c :: rest) = [c :: rest]
      rw [splitCharsF, h1, ih rest h2]
      simp

theorem extractCompanyName_eq_none (url : String) (h : pyContains url "/company/" = false) :
    extractCompanyName url = none := by
  unfold extractCompanyName
  have hs : pySplit url "/company/" = [url] := by
    unfold pySplit
    rw [splitCharsF_of_not_contains _ _ _ h]
    rfl
  rw [hs]
  rfl

theorem mem_dedupFirstAux {α : Type} [DecidableEq α] (y : α) :
    ∀ (l seen : List α), y ∈ dedupFirstAux seen l ↔ y ∈ l ∧ y ∉ seen := by
  intro l
  induction l with
  | nil => intro seen; simp [dedupFirstAux]
  | cons x xs ih =>
    intro seen
    by_cases hx : x ∈ seen
    · rw [dedupFirstAux, if_pos hx, ih]
      constructor
      · rintro ⟨h1, h2⟩
        exact ⟨List.mem_cons_of_mem _ h1, h2⟩
      · rintro ⟨h1, h2⟩
        rcases List.mem_cons.mp h1 with h | h
        · exact absurd (h ▸ hx) h2
        · exact ⟨h, h2⟩
    · rw [dedupFirstAux, if_neg hx]
      by_cases hyx : y = x
      · subst hyx
        simp [ih, hx]
      · simp only [List.mem_cons, hyx, false_or, ih]

theorem dedupFirstAux_sublist {α : Type} [DecidableEq α] :
    ∀ (l seen : List α), (dedupFirstAux seen l).Sublist l := by
  intro l
  induction l with
  | nil => intro seen; simp [dedupFirstAux]
  | cons x xs ih =>
    intro seen
    by_cases hx : x ∈ seen
    · rw [dedupFirstAux, if_pos hx]
      exact (ih seen).cons x
    · rw [dedupFirstAux, if_neg hx]
      exact (ih (x :: seen)).cons₂ x

theorem nodup_dedupFirstAux {α : Type} [DecidableEq α] :
    ∀ (l seen : List α), (dedupFirstAux seen l).Nodup := by
  intro l
  induction l with
  | nil => intro seen; simp [dedupFirstAux]
  | cons x xs ih =>
    intro seen
    by_cases hx : x ∈ seen
    · rw [dedupFirstAux, if_pos hx]; exact ih seen
    · rw [dedupFirstAux, if_neg hx]
      refine List.Nodup.cons ?_ (ih (x :: seen))
      intro hmem
      exact ((mem_dedupFirstAux x xs (x :: seen)).mp hmem).2 (List.mem_cons_self x seen)

theorem dedupFirstAux_congr_seen {α : Type} [DecidableEq α] :
    ∀ (l seen₁ seen₂ : List α), (∀ a, a ∈ seen₁ ↔ a ∈ seen₂) →
      dedupFirstAux seen₁ l = dedupFirstAux seen₂ l := by
  intro l
  induction l with
  | nil => intro seen₁ seen₂ _; rfl
  | cons x xs ih =>
    intro seen₁ seen₂ h
    by_cases hx : x ∈ seen₁
    · rw [dedupFirstAux, if_pos hx, dedupFirstAux, if_pos ((h x).mp hx)]
      exact ih seen₁ seen₂ h
    · rw [dedupFirstAux, if_neg hx, dedupFirstAux, if_neg (fun hc => hx ((h x).mpr hc))]
      rw [ih (x :: seen₁) (x :: seen₂) (fun a => by simp [h a])]

theorem dedupFirstAux_cons_seen {α : Type} [DecidableEq α] (z : α) :
    ∀ (l seen : List α), dedupFirstAux (z :: seen) l = dedupFirstAux seen (l.filter (fun w => w ≠ z)) := by
  intro l
  induction l with
  | nil => intro seen; rfl
  | cons x xs ih =>
    intro seen
    by_cases hxz : x = z
    · subst hxz
      rw [dedupFirstAux, if_pos (List.mem_cons_self x seen)]
      rw [show (x :: xs).filter (fun w => w ≠ x) = xs.filter (fun w => w ≠ x) by simp]
      exact ih seen
    · rw [show (x :: xs).filter (fun w => w ≠ z) = x :: xs.filter (fun w => w ≠ z) by simp [hxz]]
      by_cases hx : x ∈ seen
      · rw [dedupFirstAux, if_pos (List.mem_cons_of_mem _ hx), dedupFirstAux, if_pos hx]
        exact ih seen
      · have hxs : x ∉ z :: seen := by
          intro hc
          rcases List.mem_cons.mp hc with h | h
          · exact hxz h
          · exact hx h
        rw [dedupFirstAux, if_neg hxs, dedupFirstAux, if_neg hx]
        rw [dedupFirstAux_congr_seen xs (x :: z :: seen) (z :: x :: seen) (fun a => by
          simp only [List.mem_cons]
          tauto)]
        rw [ih (x :: seen)]

theorem dedupFirst_cons {α : Type} [DecidableEq α] (z : α) (zs : List α) :
    dedupFirst (z :: zs) = z :: dedupFirst (zs.filter (fun w => w ≠ z)) := by
  unfold dedupFirst
  rw [dedupFirstAux, if_neg (List.not_mem_nil z)]
  rw [dedupFirstAux_cons_seen]

theorem scrollLoopIters_stall (heights : Nat → Nat) (N : Nat) (hN : 1 ≤ N)
    (hinc : ∀ k, k < N → 1 ≤ k → heights k ≠ heights (k - 1))
    (hstall : heights N = heights (N - 1)) :
    ∀ (fuel k : Nat), 1 ≤ k → k ≤ N → N + 1 - k ≤ fuel →
      scrollLoopIters heights fuel (heights (k - 1)) k = N + 1 - k := by
  intro fuel
  induction fuel with
  | zero =>
    intro k hk1 hkN hfuel
    omega
  | succ f ih =>
    intro k hk1 hkN hfuel
    rw [scrollLoopIters]
    by_cases hkeq : k = N
    · subst hkeq
      rw [if_pos hstall]
      omega
    · have hlt : k < N := lt_of_le_of_ne hkN hkeq
      rw [if_neg (hinc k hlt hk1)]
      have hrec : scrollLoopIters heights f (heights k) (k + 1) = N + 1 - (k + 1) := by
        have := ih (k + 1) (by omega) (by omega) (by omega)
        simpa using this
      rw [hrec]
      omega

theorem scrollLoopIters_grow (heights : Nat → Nat) :
    ∀ (fuel k : Nat), 1 ≤ k → (∀ j, j < k + fuel → k ≤ j → heights j ≠ heights (j - 1)) →
      scrollLoopIters heights fuel (heights (k - 1)) k = fuel := by
  intro fuel
  induction fuel with
  | zero => intro k _ _; rfl
  | succ f ih =>
    intro k hk1 hgrow
    rw [scrollLoopIters]
    rw [if_neg (hgrow k (by omega) (le_refl k))]
    have hrec : scrollLoopIters heights f (heights k) (k + 1) = f := by
      have := ih (k + 1) (by omega) (fun j hj1 hj2 => hgrow j (by omega) (by omega))
      simpa using this
    rw [hrec]
    omega

theorem extractCommentsLoop_eq (l : List CommentElem) :
    extractCommentsLoop l = (l.filter (fun ce => ce.mainContent.isSome)).map commentRecordOf := by
  induction l with
  | nil => rfl
  | cons ce rest ih =>
    cases h : ce.mainContent with
    | none =>
      rw [extractCommentsLoop, h]
      rw [show (ce :: rest).filter (fun ce => ce.mainContent.isSome) =
        rest.filter (fun ce => ce.mainContent.isSome) by simp [List.filter, h]]
      exact ih
    | some t =>
      rw [extractCommentsLoop, h]
      rw [show (ce :: rest).filter (fun ce => ce.mainContent.isSome) =
        ce :: rest.filter (fun ce => ce.mainContent.isSome) by simp [List.filter, h]]
      rw [List.map_cons, ih]
      unfold commentRecordOf
      rw [h]
      rfl

theorem extractComments_of_no_button (cfg : ScraperConfig) (post : PostElem)
    (h : post.hasCommentsButton = false) : extractComments cfg post = [] := by
  unfold extractComments
  rw [h]
  rfl

theorem extractCommentsLoop_length (l : List CommentElem) :
    (extractCommentsLoop l).length ≤ l.length := by
  rw [extractCommentsLoop_eq, List.length_map]
  exact List.length_filter_le _ _

theorem countsStep_of_comment (cs : String × String) (t : String) (h : spanIsComment t = true) :
    countsStep cs t = (digitsOr0 (pyLower (pyStrip t)), cs.2) := by
  unfold countsStep
  rw [if_pos]
  exact h

theorem countsStep_fst_of_not_comment (cs : String × String) (t : String) (h : spanIsComment t = false) :
    (countsStep cs t).1 = cs.1 := by
  unfold countsStep
  rw [if_neg]
  · by_cases hs : (pyContains (pyLower (pyStrip t)) "share" || pyContains (pyLower (pyStrip t)) "repost") = true
    · rw [if_pos hs]
    · rw [if_neg hs]
  · intro hc
    rw [show pyContains (pyLower (pyStrip t)) "comment" = spanIsComment t from rfl] at hc
    rw [h] at hc
    exact Bool.false_ne_true hc

theorem countsStep_of_share (cs : String × String) (t : String) (h : spanIsShare t = true) :
    countsStep cs t = (cs.1, digitsOr0 (pyLower (pyStrip t))) := by
  unfold countsStep
  have hc : spanIsComment t = false := by
    unfold spanIsShare at h
    cases hcc : spanIsComment t
    · rfl
    · rw [hcc] at h; simp at h
  have hs : (pyContains (pyLower (pyStrip t)) "share" || pyContains (pyLower (pyStrip t)) "repost") = true := by
    unfold spanIsShare at h
    rw [hc] at h
    simpa using h
  rw [if_neg, if_pos hs]
  intro hcc
  rw [show pyContains (pyLower (pyStrip t)) "comment" = spanIsComment t from rfl] at hcc
  rw [hc] at hcc
  exact Bool.false_ne_true hcc

theorem countsStep_snd_of_not_share (cs : String × String) (t : String) (h : spanIsShare t = false) :
    (countsStep cs t).2 = cs.2 := by
  unfold countsStep
  by_cases hc : pyContains (pyLower (pyStrip t)) "comment" = true
  · rw [if_pos hc]
  · rw [if_neg hc]
    have hs : (pyContains (pyLower (pyStrip t)) "share" || pyContains (pyLower (pyStrip t)) "repost") = false := by
      unfold spanIsShare at h
      have hcc : spanIsComment t = false := by
        cases hcc' : spanIsComment t
        · rfl
        · exact absurd hcc' hc
      rw [hcc] at h
      simpa using h
    rw [if_neg (by rw [hs]; exact Bool.false_ne_true)]

theorem countsFold_fst (spans : List String) (cs : String × String) :
    (spans.foldl countsStep cs).1 =
      match (spans.filter spanIsComment).getLast? with
      | some t => digitsOr0 (pyLower (pyStrip t))
      | none => cs.1 := by
  induction spans using List.reverseRecOn with
  | nil => rfl
  | append_singleton xs x ih =>
    rw [List.foldl_append, List.filter_append]
    cases hx : spanIsComment x with
    | true =>
      rw [show List.filter spanIsComment [x] = [x] by simp [List.filter, hx]]
      rw [List.getLast?_concat]
      show (countsStep (xs.foldl countsStep cs) x).1 = _
      rw [countsStep_of_comment _ _ hx]
    | false =>
      rw [show List.filter spanIsComment [x] = [] by simp [List.filter, hx]]
      rw [List.append_nil]
      show (countsStep (xs.foldl countsStep cs) x).1 = _
      rw [countsStep_fst_of_not_comment _ _ hx]
      exact ih

theorem countsFold_snd (spans : List String) (cs : String × String) :
    (spans.foldl countsStep cs).2 =
      match (spans.filter spanIsShare).getLast? with
      | some t => digitsOr0 (pyLower (pyStrip t))
      | none => cs.2 := by
  induction spans using List.reverseRecOn with
  | nil => rfl
  | append_singleton xs x ih =>
    rw [List.foldl_append, List.filter_append]
    cases hx : spanIsShare x with
    | true =>
      rw [show List.filter spanIsShare [x] = [x] by simp [List.filter, hx]]
      rw [List.getLast?_concat]
      show (countsStep (xs.foldl countsStep cs) x).2 = _
      rw [countsStep_of_share _ _ hx]
    | false =>
      rw [show List.filter spanIsShare [x] = [] by simp [List.filter, hx]]
      rw [List.append_nil]
      show (countsStep (xs.foldl countsStep cs) x).2 = _
      rw [countsStep_snd_of_not_share _ _ hx]
      exact ih

theorem isDigitString_digitsOr0 (t : String) : isDigitString (digitsOr0 t) = true := by
  unfold digitsOr0
  cases h : (t.data.filter Char.isDigit).isEmpty with
  | true => rw [if_pos h]; decide
  | false =>
    rw [if_neg (by rw [h]; exact Bool.false_ne_true)]
    unfold isDigitString
    show (!(t.data.filter Char.isDigit).isEmpty && (t.data.filter Char.isDigit).all Char.isDigit) = true
    rw [h]
    simp only [Bool.not_false, Bool.true_and]
    rw [List.all_eq_true]
    intro c hc
    exact List.of_mem_filter hc

/- Claim theorems. -/

/-- C1: for every post and configured comment cap, the extracted comment
list has length at most max_comments, and it is exactly the first
max_comments comment items in DOM order, minus the individually skipped
ones (those without a readable main-content text), mapped to records. -/
theorem comment_cap_C1 (cfg : ScraperConfig) (post : PostElem) :
    (extractComments cfg post).length ≤ cfg.max_comments
  ∧ extractComments cfg post =
      ((if post.hasCommentsButton then post.commentItems.take cfg.max_comments else []).filter
        (fun ce => ce.mainContent.isSome)).map commentRecordOf := by
  constructor
  · unfold extractComments
    by_cases h : post.hasCommentsButton = true
    · rw [if_pos h]
      calc (extractCommentsLoop (post.commentItems.take cfg.max_comments)).length
          ≤ (post.commentItems.take cfg.max_comments).length := extractCommentsLoop_length _
        _ ≤ cfg.max_comments := List.length_take_le _ _
    · rw [if_neg h]
      exact Nat.zero_le _
  · unfold extractComments
    by_cases h : post.hasCommentsButton = true
    · rw [if_pos h, if_pos h]
      exact extractCommentsLoop_eq _
    · rw [if_neg h, if_neg h]
      rfl

/-- The base64 GIF lazy-load stub used to exhibit the media-filter bug
behind claim C2: a real placeholder src, which begins with the base64
GIF header but does not end with it. -/
def base64StubExample : String :=
  "data:image/gif;base64,R0lGODlhAQABAAAAACH5BAEKAAEALAAAAAABAAEAAAICTAEAOw=="

/-- A post whose only media element carries the placeholder src. -/
def elemOnlyStubMedia : PostElem :=
  { bodyText := some "p"
    reactionsCount := none
    ariaHiddenSpans := []
    mediaSrcs := fun sel => if sel = "img.feed-shared-image__image" then [some base64StubExample] else []
    hasCommentsButton := false
    commentItems := [] }

/-- A post with no media elements at all. -/
def elemNoMedia : PostElem :=
  { bodyText := some "p"
    reactionsCount := none
    ariaHiddenSpans := []
    mediaSrcs := fun _ => []
    hasCommentsButton := false
    commentItems := [] }

/-- C2 (code bug): the filter of line 268 of src/scraper.py tests
endswith against the base64 GIF header, which a placeholder with a
payload never satisfies, so the extraction keeps the stub URL as a
singleton instead of excluding it; on a post with no media elements it
does return the empty list. -/
theorem media_placeholder_C2_bug :
    extractMediaUrls elemOnlyStubMedia "img" imageClassNames = [base64StubExample]
  ∧ isBase64GifPlaceholder base64StubExample = true
  ∧ pyEndsWith base64StubExample "data:image/gif;base64" = false
  ∧ extractMediaUrls elemNoMedia "img" imageClassNames = [] := by
  refine ⟨?_, ?_, ?_, ?_⟩ <;> decide

/-- C3: one feed scan deduplicates the concatenated selector matches by
element identity: the result has no duplicates, is a subsequence of the
concatenation (so in first-seen order), has the same members, and the
deduplication keeps each element at the position of its first
encounter, removing the later occurrences. -/
theorem dedup_order_C3 (α : Type) [DecidableEq α] (query : String → List α) :
    (collectPostElements query).Nodup
  ∧ (collectPostElements query).Sublist (allMatches query)
  ∧ (∀ y, y ∈ collectPostElements query ↔ y ∈ allMatches query)
  ∧ ∀ (z : α) (zs : List α), dedupFirst (z :: zs) = z :: dedupFirst (zs.filter (fun w => w ≠ z)) := by
  refine ⟨nodup_dedupFirstAux _ _, dedupFirstAux_sublist _ _, ?_, fun z zs => dedupFirst_cons z zs⟩
  intro y
  rw [show collectPostElements query = dedupFirstAux [] (allMatches query) from rfl]
  rw [mem_dedupFirstAux]
  simp

/-- C4: when the document height first fails to grow at scroll N with
N below the configured scroll count, the loop performs exactly N scroll
iterations; when the height changes at every scroll it performs the
full configured count. -/
theorem scroll_stall_C4 (heights : Nat → Nat) (n : Nat) :
    (∀ N, 1 ≤ N → N < n →
      (∀ k, k < N → 1 ≤ k → heights k ≠ heights (k - 1)) →
      heights N = heights (N - 1) →
      scrollIters heights n = N)
  ∧ ((∀ k, k < n + 1 → 1 ≤ k → heights k ≠ heights (k - 1)) →
      scrollIters heights n = n) := by
  constructor
  · intro N h1 h2 hinc hstall
    unfold scrollIters
    have := scrollLoopIters_stall heights N h1 hinc hstall n 1 (le_refl 1) (by omega) (by omega)
    simpa using this
  · intro hgrow
    unfold scrollIters
    have := scrollLoopIters_grow heights n 1 (le_refl 1) (fun j hj1 hj2 => hgrow j (by omega) (by omega))
    simpa using this

/-- Witness for C4: a page growing for two scrolls and stalled at the
third performs three of five configured iterations; a page growing at
every scroll performs all five. -/
theorem scroll_stall_C4_witness :
    scrollIters (fun k => min k 2) 5 = 3 ∧ scrollIters (fun k => k) 5 = 5 :=
  ⟨(scroll_stall_C4 (fun k => min k 2) 5).1 3 (by decide) (by decide) (by decide) (by decide),
   (scroll_stall_C4 (fun k => k) 5).2 (by decide)⟩

/-- C5 (amended): the comments and shares fields are always non-empty
digit strings; the likes field is the zero string exactly by default
when the reactions-count control is absent, and otherwise the raw
stripped control text; each comment like count is likewise the zero
string when the like control is absent and otherwise its raw stripped
text. -/
theorem numeric_fields_C5 (cfg : ScraperConfig) (post : PostElem) :
    isDigitString (extractPostData cfg post).comments = true
  ∧ isDigitString (extractPostData cfg post).shares = true
  ∧ (extractPostData cfg post).likes = (match post.reactionsCount with
      | none => "0"
      | some t => pyStrip t)
  ∧ (extractPostData cfg post).top_comments.map (fun c => c.likes) =
      ((if post.hasCommentsButton then post.commentItems.take cfg.max_comments else []).filter
        (fun ce => ce.mainContent.isSome)).map (fun ce => match ce.likeSpan with
          | none => "0"
          | some s => pyStrip s) := by
  refine ⟨?_, ?_, ?_, ?_⟩
  · show isDigitString (post.ariaHiddenSpans.foldl countsStep ("0", "0")).1 = true
    rw [countsFold_fst]
    cases h : (post.ariaHiddenSpans.filter spanIsComment).getLast? with
    | none => decide
    | some t => exact isDigitString_digitsOr0 _
  · show isDigitString (post.ariaHiddenSpans.foldl countsStep ("0", "0")).2 = true
    rw [countsFold_snd]
    cases h : (post.ariaHiddenSpans.filter spanIsShare).getLast? with
    | none => decide
    | some t => exact isDigitString_digitsOr0 _
  · rw [show (extractPostData cfg post).likes = (match post.reactionsCount with
      | some t => pyStrip t
      | none => "0") from rfl]
    cases post.reactionsCount <;> rfl
  · show (extractComments cfg post).map (fun c => c.likes) = _
    unfold extractComments
    by_cases hb : post.hasCommentsButton = true
    · rw [if_pos hb, if_pos hb, extractCommentsLoop_eq, List.map_map]
      rfl
    · rw [if_neg hb, if_neg hb]
      rfl

/-- A post whose reactions-count span holds a thousands-separated
count. -/
def elemRawLikes : PostElem :=
  { bodyText := some "hello"
    reactionsCount := some "1,234"
    ariaHiddenSpans := []
    mediaSrcs := fun _ => []
    hasCommentsButton := false
    commentItems := [] }

/-- C5 counterexample: the likes field copies the raw control text, so
with a thousands-separated reaction count it is not a digit string. -/
theorem numeric_fields_C5_counterexample :
    (extractPostData cfgDefault elemRawLikes).likes = "1,234"
  ∧ isDigitString "1,234" = false := by
  refine ⟨?_, ?_⟩ <;> decide

/-- C6 (amended): each aria-hidden span is classified on its lowercased
stripped text; spans containing the comment word set the comments field
and spans containing the share or repost word, but not the comment
word, set the shares field; the value written is the concatenation of
every digit character of the text, the zero string when there is none,
and for each field the last matching span wins. -/
theorem span_counts_C6 (cfg : ScraperConfig) (post : PostElem) :
    (extractPostData cfg post).comments =
      (match (post.ariaHiddenSpans.filter spanIsComment).getLast? with
        | some t => digitsOr0 (pyLower (pyStrip t))
        | none => "0")
  ∧ (extractPostData cfg post).shares =
      (match (post.ariaHiddenSpans.filter spanIsShare).getLast? with
        | some t => digitsOr0 (pyLower (pyStrip t))
        | none => "0") := by
  constructor
  · show (post.ariaHiddenSpans.foldl countsStep ("0", "0")).1 = _
    rw [countsFold_fst]
  · show (post.ariaHiddenSpans.foldl countsStep ("0", "0")).2 = _
    rw [countsFold_snd]

/-- A post with one aria-hidden span matching both the comment and the
share words. -/
def elemMixedSpan : PostElem :=
  { bodyText := some "x"
    reactionsCount := none
    ariaHiddenSpans := ["5 comments and 2 shares"]
    mediaSrcs := fun _ => []
    hasCommentsButton := false
    commentItems := [] }

/-- C6 counterexample: on the mixed span the code writes the
concatenation of all digits, not the leading digit run the claim
states, and by the elif it leaves the shares field untouched although
the span contains the share word. -/
theorem span_counts_C6_counterexample :
    (extractPostData cfgDefault elemMixedSpan).comments = "52"
  ∧ (extractPostData cfgDefault elemMixedSpan).shares = "0"
  ∧ leadingDigitRun (pyLower (pyStrip "5 comments and 2 shares")) = "5"
  ∧ ("52" : String) ≠ "5" := by
  refine ⟨?_, ?_, ?_, ?_⟩ <;> decide

/-- C7 (amended): when the combined body query finds nothing the post is
not aborted: the text field carries the sentinel literal of line 226 of
src/scraper.py and every other field is still computed normally from
the element. -/
theorem body_sentinel_C7 (cfg : ScraperConfig) (post : PostElem) (h : post.bodyText = none) :
    (extractPostData cfg post).post_text = "[Could not extract post content]"
  ∧ (extractPostData cfg post).likes = (match post.reactionsCount with
      | none => "0"
      | some t => pyStrip t)
  ∧ (extractPostData cfg post).image_urls = extractMediaUrls post "img" imageClassNames
  ∧ (extractPostData cfg post).video_urls = extractMediaUrls post "video" videoClassNames
  ∧ (extractPostData cfg post).top_comments = extractComments cfg post
  ∧ (extractPostData cfg post).comments =
      (match (post.ariaHiddenSpans.filter spanIsComment).getLast? with
        | some t => digitsOr0 (pyLower (pyStrip t))
        | none => "0")
  ∧ (extractPostData cfg post).shares =
      (match (post.ariaHiddenSpans.filter spanIsShare).getLast? with
        | some t => digitsOr0 (pyLower (pyStrip t))
        | none => "0") := by
  refine ⟨?_, ?_, rfl, rfl, rfl, ?_, ?_⟩
  · rw [show (extractPostData cfg post).post_text = (match post.bodyText with
      | some t => pyStrip t
      | none => "[Could not extract post content]") from rfl, h]
  · rw [show (extractPostData cfg post).likes = (match post.reactionsCount with
      | some t => pyStrip t
      | none => "0") from rfl]
    cases post.reactionsCount <;> rfl
  · show (post.ariaHiddenSpans.foldl countsStep ("0", "0")).1 = _
    rw [countsFold_fst]
  · show (post.ariaHiddenSpans.foldl countsStep ("0", "0")).2 = _
    rw [countsFold_snd]

/-- A post element whose body query fails, with every other control
present. -/
def elemNoBody : PostElem :=
  { bodyText := none
    reactionsCount := some " 7 "
    ariaHiddenSpans := ["3 comments"]
    mediaSrcs := fun _ => []
    hasCommentsButton := true
    commentItems := [⟨some " Great ", some "2"⟩] }

/-- C7 counterexample: the sentinel the code writes is the long literal
of line 226, not the short one the claim names. -/
theorem body_sentinel_C7_counterexample :
    elemNoBody.bodyText = none
  ∧ (extractPostData cfgDefault elemNoBody).post_text = "[Could not extract post content]"
  ∧ (extractPostData cfgDefault elemNoBody).post_text ≠ "[unextractable]" := by
  refine ⟨?_, ?_, ?_⟩ <;> decide

/-- Witness for C7: the amended claim applied to a concrete element
without a readable body. -/
theorem body_sentinel_C7_witness :
    (extractPostData cfgDefault elemNoBody).post_text = "[Could not extract post content]"
  ∧ (extractPostData cfgDefault elemNoBody).likes = pyStrip " 7 " :=
  ⟨(body_sentinel_C7 cfgDefault elemNoBody rfl).1, (body_sentinel_C7 cfgDefault elemNoBody rfl).2.1⟩

/-- C8: a post on which the comments-affordance control is missing
yields the empty comment list without entering the expansion loop, and
a feed of posts each lacking the control and any comment-matching span
yields a successful run with one record per post, each with the zero
comments count and an empty top-comments list. -/
theorem no_comments_control_C8 (α : Type) [DecidableEq α] (cfg : ScraperConfig) :
    (∀ post : PostElem, post.hasCommentsButton = false → extractComments cfg post = [])
  ∧ (∀ (page : FeedPage α) (url ts slug : String) (autoSave : Bool),
      extractCompanyName url = some slug →
      (∀ e, e ∈ collectPostElements page.query →
        (page.read e).hasCommentsButton = false
        ∧ (page.read e).ariaHiddenSpans.filter spanIsComment = []) →
      (scrapeCompanyPosts cfg true page url ts autoSave).1 =
          Except.ok { company_name := slug, timestamp := ts, source_url := url,
                      posts := (collectPostElements page.query).map (fun e => extractPostData cfg (page.read e)) }
        ∧ ((collectPostElements page.query).map (fun e => extractPostData cfg (page.read e))).length =
            (collectPostElements page.query).length
        ∧ ∀ rec, rec ∈ (collectPostElements page.query).map (fun e => extractPostData cfg (page.read e)) →
            rec.comments = "0" ∧ rec.top_comments = []) := by
  constructor
  · intro post h
    exact extractComments_of_no_button cfg post h
  · intro page url ts slug autoSave hslug hposts
    refine ⟨?_, by simp, ?_⟩
    · unfold scrapeCompanyPosts
      rw [if_neg (by simp), hslug]
    · intro rec hrec
      rcases List.mem_map.mp hrec with ⟨e, he, rfl⟩
      rcases hposts e he with ⟨hbtn, hspan⟩
      constructor
      · show ((page.read e).ariaHiddenSpans.foldl countsStep ("0", "0")).1 = "0"
        rw [countsFold_fst, hspan]
        rfl
      · show extractComments cfg (page.read e) = []
        exact extractComments_of_no_button cfg _ hbtn

/-- A post element with a like count and no comments control. -/
def elemNoCommentsBtn : PostElem :=
  { bodyText := some "hello"
    reactionsCount := some "5"
    ariaHiddenSpans := []
    mediaSrcs := fun _ => []
    hasCommentsButton := false
    commentItems := [] }

/-- A feed page whose first selector returns three such posts. -/
def pageNoComments : FeedPage Nat :=
  { heights := fun k => min k 1
    query := fun sel => if sel = "div.feed-shared-update-v2" then [1, 2, 3] else []
    read := fun _ => elemNoCommentsBtn }

/-- Witness for C8: the three-post feed of the end-to-end scenario. -/
theorem no_comments_control_C8_witness :
    extractComments cfgDefault elemNoCommentsBtn = []
  ∧ (scrapeCompanyPosts cfgDefault true pageNoComments
        "https://www.linkedin.com/company/acme" "20250101_120000" false).1 =
      Except.ok { company_name := "acme", timestamp := "20250101_120000",
                  source_url := "https://www.linkedin.com/company/acme",
                  posts := (collectPostElements pageNoComments.query).map
                    (fun e => extractPostData cfgDefault (pageNoComments.read e)) } :=
  ⟨(no_comments_control_C8 Nat cfgDefault).1 elemNoCommentsBtn rfl,
   ((no_comments_control_C8 Nat cfgDefault).2 pageNoComments
      "https://www.linkedin.com/company/acme" "20250101_120000" "acme" false
      (by decide) (by decide)).1⟩

/-- C9: the navigation URL is the input with trailing slashes stripped
and the posts suffix appended exactly when the stripped URL does not
already end in it; in particular it always ends in the posts suffix. -/
theorem url_normalization_C9 (u : String) :
    pyEndsWith (normalizeCompanyUrl u) "/posts" = true
  ∧ (pyEndsWith (pyRstripSlash u) "/posts" = true → normalizeCompanyUrl u = pyRstripSlash u)
  ∧ (pyEndsWith (pyRstripSlash u) "/posts" = false →
      normalizeCompanyUrl u = pyRstripSlash u ++ "/posts") := by
  have hn : normalizeCompanyUrl u =
      if pyEndsWith (pyRstripSlash u) "/posts" = true then pyRstripSlash u
      else pyRstripSlash u ++ "/posts" := rfl
  cases h : pyEndsWith (pyRstripSlash u) "/posts" with
  | true =>
    have he : normalizeCompanyUrl u = pyRstripSlash u := by rw [hn, h]; simp
    refine ⟨?_, fun _ => he, fun hc => Bool.noConfusion hc⟩
    rw [he]
    exact h
  | false =>
    have he : normalizeCompanyUrl u = pyRstripSlash u ++ "/posts" := by rw [hn, h]; simp
    refine ⟨?_, fun hc => Bool.noConfusion hc, fun _ => he⟩
    rw [he]
    exact pyEndsWith_append _ _

/-- Witness for C9: a URL already ending in the posts suffix after slash
stripping is left unchanged, and one without it gets the suffix. -/
theorem url_normalization_C9_witness :
    pyEndsWith (pyRstripSlash "https://www.linkedin.com/company/acme/posts/") "/posts" = true
  ∧ normalizeCompanyUrl "https://www.linkedin.com/company/acme/posts/" =
      pyRstripSlash "https://www.linkedin.com/company/acme/posts/"
  ∧ normalizeCompanyUrl "https://www.linkedin.com/company/acme/" =
      pyRstripSlash "https://www.linkedin.com/company/acme/" ++ "/posts" :=
  ⟨by decide,
   (url_normalization_C9 "https://www.linkedin.com/company/acme/posts/").2.1 (by decide),
   (url_normalization_C9 "https://www.linkedin.com/company/acme/").2.2 (by decide)⟩

/-- C10: on a URL without the company marker the run fails with the
IndexError of the slug derivation before any page effect: the result is
the error and the effect trace is empty, even with the browser session
present, whatever the page holds. -/
theorem slug_precondition_C10 (α : Type) [DecidableEq α] (cfg : ScraperConfig) (page : FeedPage α)
    (url ts : String) (autoSave : Bool) (h : pyContains url "/company/" = false) :
    scrapeCompanyPosts cfg true page url ts autoSave =
      (Except.error ScrapeError.indexError, ([] : List (ScrapeEffect α))) := by
  unfold scrapeCompanyPosts
  rw [if_neg (by simp), extractCompanyName_eq_none url h]

/-- A page with content, to show the failure does not depend on it. -/
def pageWithContent : FeedPage Nat :=
  { heights := fun k => k
    query := fun sel => if sel = "div.feed-shared-update-v2" then [7] else []
    read := fun _ => elemNoCommentsBtn }

/-- Witness for C10: a member-profile URL, which has no company
segment, fails with the IndexError and an empty effect trace. -/
theorem slug_precondition_C10_witness :
    scrapeCompanyPosts cfgDefault true pageWithContent
        "https://www.linkedin.com/in/someone" "20250101_120000" true =
      (Except.error ScrapeError.indexError, ([] : List (ScrapeEffect Nat))) :=
  slug_precondition_C10 Nat cfgDefault pageWithContent
    "https://www.linkedin.com/in/someone" "20250101_120000" true (by decide)
